import Mathlib

/-!
Verification of `phobos/operators/selection.py` (Phobos, a Blender add-on for
editing robot models).

The file defines five Blender operators (Select-by-phobostype, Select-by-name,
Goto-object, Select-root, Select-model) plus `register`/`unregister` lifecycle
functions.  We embed the scene/selection state the operators act on, translate
each `execute`/`poll` body, and model the external collaborators
(`phobos.utils.selection`, `phobos.utils.blender`, the Blender data model)
from the specification, since their code is not part of this file.
-/

/-- A Python-level runtime error raised by an operator body. -/
inductive PyErr
  | keyError
  | attributeError
  deriving DecidableEq, Repr

/-- The completion status an operator returns to Blender. -/
inductive OpResult
  | FINISHED
  | CANCELLED
  deriving DecidableEq, Repr

/-- A message sent to the Phobos logging sink, with its severity level. -/
structure LogMsg where
  msg : String
  level : String
  deriving DecidableEq, Repr

/-- Modelled from the Blender data model: a scene object.  `phobostype` is the
Phobos classification tag, `parent` the name of the parent object (if any),
`modelname` the value of the custom property "modelname" (if present), and
`layer` the index of the layer containing the object. -/
structure Obj where
  name : String
  phobostype : String
  parent : Option String
  modelname : Option String
  layer : Nat
  deriving DecidableEq, Repr

/-- Modelled from the Blender data model: a scene.  `objects` are the objects
linked into the scene; `idProps` are the keys of the custom (ID) properties
stored on the scene datablock itself — per the Blender API, membership tests
on a Scene (`name in scene`) consult these keys, not the scene's objects. -/
structure Scene where
  name : String
  objects : List Obj
  idProps : List String
  deriving DecidableEq, Repr

/-- Modelled from the Blender data model: the state an operator reads and
mutates — the scene list (`bpy.data.scenes`), the active scene
(`context.scene`), the current selection (`context.selected_objects`), the
active object, the interaction mode (`context.mode`) and the set of visible
layers. -/
structure BState where
  scenes : List Scene
  activeScene : String
  selected : List String
  activeObject : Option String
  mode : String
  visibleLayers : List Nat
  deriving DecidableEq, Repr

/-- Look up a scene by name in `bpy.data.scenes`. -/
def findScene (st : BState) (n : String) : Option Scene :=
  st.scenes.find? (fun s => s.name == n)

/-- The objects of the active scene (`context.scene.objects`). -/
def sceneObjs (st : BState) : List Obj :=
  match findScene st st.activeScene with
  | some s => s.objects
  | none => []

/-- Look up an object by name in an object collection. -/
def findObj (os : List Obj) (n : String) : Option Obj :=
  os.find? (fun o => o.name == n)

/-- Modelled from the spec: root resolution (`sUtils.getRoot`) follows parent
links up to the topmost ancestor.  The fuel argument bounds the parent chain
by the number of objects, making the traversal total. -/
def rootNameAux (os : List Obj) : Nat → String → String
  | 0, n => n
  | Nat.succ fuel, n =>
    match findObj os n with
    | some o =>
      match o.parent with
      | some p => rootNameAux os fuel p
      | none => n
    | none => n

/-- Modelled from the spec: the name of the root ancestor of the named object,
resolved within the active scene. -/
def getRoot (st : BState) (n : String) : String :=
  rootNameAux (sceneObjs st) (sceneObjs st).length n

/-- Modelled from the spec: `sUtils.getRoots` — the root objects of the
scene, i.e. the objects with no parent. -/
def getRoots (st : BState) : List Obj :=
  (sceneObjs st).filter (fun o => o.parent.isNone)

/-- Modelled from the spec: `sUtils.getChildren root` — the objects of the
model anchored at the given root: every scene object whose root resolution
yields that root (the root itself included, being its own root ancestor). -/
def getChildren (st : BState) (r : String) : List String :=
  ((sceneObjs st).filter (fun o => getRoot st o.name == r)).map (fun o => o.name)

/-- Modelled from the spec: `sUtils.selectObjects objs clear active` with
`clear = True` — replaces the current selection with the given objects; when
an index is given, the object at that index becomes the active object. -/
def selectObjects (st : BState) (objs : List String) (active : Option Nat) : BState :=
  { st with
    selected := objs
    activeObject :=
      match active with
      | some i => objs.get? i
      | none => st.activeObject }

/-- Modelled from the spec: `bUtils.setObjectLayersActive obj extendlayers=True`
— makes the layer containing the object visible, keeping the already visible
layers. -/
def setObjectLayersActive (st : BState) (o : Obj) : BState :=
  { st with
    visibleLayers :=
      if st.visibleLayers.contains o.layer then st.visibleLayers
      else o.layer :: st.visibleLayers }

/-- Modelled from the spec: `bUtils.switchToScene name` — switches the active
scene to the named scene. -/
def switchToScene (st : BState) (n : String) : BState :=
  { st with activeScene := n }

/-- Everything an `execute` call produces: the status returned to Blender, the
state after the call, the log messages emitted, and the names passed to
`switchToScene` calls (in order). -/
structure ExecOut where
  result : OpResult
  state : BState
  logs : List LogMsg
  switchCalls : List String
  deriving DecidableEq, Repr

/-- Does the needle occur at the head of the haystack? -/
def headMatches : List Char → List Char → Bool
  | [], _ => true
  | _ :: _, [] => false
  | c :: cs, d :: ds => c == d && headMatches cs ds

/-- Python substring containment (`needle in haystack`): the needle occurs
contiguously somewhere in the haystack. -/
def containsSub (needle : List Char) : List Char → Bool
  | [] => needle.isEmpty
  | d :: ds => headMatches needle (d :: ds) || containsSub needle ds

/-- `SelectObjectsByPhobosType.execute`: replaces the selection with the scene
objects whose phobostype is among the chosen types (here the single chosen
type), then returns FINISHED.  The lookup and selection utilities are
modelled from the spec. -/
def selByPhobosTypeExecute (seltype : String) (st : BState) : ExecOut :=
  let objs := ((sceneObjs st).filter (fun o => o.phobostype == seltype)).map (fun o => o.name)
  { result := .FINISHED
    state := selectObjects st objs none
    logs := []
    switchCalls := [] }

/-- `SelectObjectsByName.execute`: replaces the selection with the objects
whose name contains the given fragment as a substring, then returns FINISHED.
`sUtils.selectByName` is modelled from the spec. -/
def selByNameExecute (namefragment : String) (st : BState) : ExecOut :=
  let objs := ((sceneObjs st).filter
    (fun o => containsSub namefragment.toList o.name.toList)).map (fun o => o.name)
  { result := .FINISHED
    state := selectObjects st objs none
    logs := []
    switchCalls := [] }

/-- Lines 112–115 of `GotoObjectOperator.execute`: look the object up in the
(possibly just switched) active scene — an absent key raises KeyError — make
its layer visible and select it as sole active selection. -/
def gotoFinish (objectname : String) (st : BState) (logs : List LogMsg)
    (calls : List String) : Except PyErr ExecOut :=
  match findObj (sceneObjs st) objectname with
  | none => .error .keyError
  | some o =>
    let st1 := setObjectLayersActive st o
    let st2 := selectObjects st1 [objectname] (some 0)
    .ok { result := .FINISHED, state := st2, logs := logs, switchCalls := calls }

/-- `GotoObjectOperator.execute`.  Line 101 tests
`self.objectname not in context.scene`: per the Blender API this membership
test is over the scene datablock's custom (ID) property keys, not over
`context.scene.objects` (which line 103 uses for the per-scene search). -/
def gotoObjectExecute (objectname : String) (st : BState) : Except PyErr ExecOut :=
  let logs0 : List LogMsg := [⟨"Jumping to object " ++ objectname ++ ".", "DEBUG"⟩]
  let inSceneProps :=
    match findScene st st.activeScene with
    | some s => s.idProps.contains objectname
    | none => false
  if inSceneProps then
    gotoFinish objectname st logs0 []
  else
    match st.scenes.find? (fun sce => (findObj sce.objects objectname).isSome) with
    | some sce => gotoFinish objectname (switchToScene st sce.name) logs0 [sce.name]
    | none =>
      .ok { result := .CANCELLED
            state := st
            logs := logs0 ++
              [⟨"Could not find scene of object " ++ objectname ++ ". Aborted.", "ERROR"⟩]
            switchCalls := [] }

/-- An apostrophe character, kept out of string literals. -/
def apos : String := String.singleton (Char.ofNat 39)

/-- `SelectRootOperator.execute`.  The roots of the selected objects are
collected into a set; when the set is non-empty, line 134 evaluates
`self.objectname` — but `SelectRootOperator` declares no `objectname`
property, so the attribute access raises AttributeError before anything else
in that branch runs.  When the set is empty, an error is logged and FINISHED
is returned. -/
def selectRootExecute (st : BState) : Except PyErr ExecOut :=
  let roots := (st.selected.map (fun n => getRoot st n)).dedup
  if roots.isEmpty then
    .ok { result := .FINISHED
          state := st
          logs := [⟨"Couldn" ++ apos ++ "t find any root object.", "ERROR"⟩]
          switchCalls := [] }
  else
    .error .attributeError

/-- The loop of lines 164–166 of `SelectModelOperator.execute`: for each root,
read its "modelname" custom property (raising KeyError when absent) and, on a
match, ASSIGN the root's children to `selection`, overwriting any earlier
match; the loop never breaks, so every root's property is read. -/
def pickModelSelection (modelname : String) (st : BState) :
    List Obj → List String → Except PyErr (List String)
  | [], sel => .ok sel
  | r :: rs, sel =>
    match r.modelname with
    | none => .error .keyError
    | some m =>
      pickModelSelection modelname st rs
        (if m == modelname then getChildren st r.name else sel)

/-- `SelectModelOperator.execute`: with a non-empty model name, scan all roots
for the name (via `pickModelSelection`); with an empty name, derive the
deduplicated roots of the current selection and extend the selection by each
root's children.  Either way the resulting list replaces the selection and
FINISHED is returned. -/
def selectModelExecute (modelname : String) (st : BState) : Except PyErr ExecOut :=
  if modelname ≠ "" then
    match pickModelSelection modelname st (getRoots st) [] with
    | .error e => .error e
    | .ok sel =>
      .ok { result := .FINISHED
            state := selectObjects st sel none
            logs := [⟨"phobos: Selecting model" ++ modelname, "INFO"⟩]
            switchCalls := [] }
  else
    let roots := (st.selected.map (fun n => getRoot st n)).dedup
    let sel := roots.foldr (fun r acc => getChildren st r ++ acc) []
    .ok { result := .FINISHED
          state := selectObjects st sel none
          logs := [⟨"No model name provided, deriving from selection...", "INFO"⟩]
          switchCalls := [] }

/-- The five operator classes defined in the file. -/
inductive OpName
  | selByType
  | selByName
  | gotoObject
  | selectRoot
  | selectModel
  deriving DecidableEq, Repr

/-- The `poll` classmethod each operator declares, when it declares one:
Select-by-phobostype requires `context.mode == OBJECT`; Goto-object requires
`context.scene.objects` to be truthy (non-empty); Select-root requires
`len(bpy.context.selected_objects) > 0`; Select-by-name and Select-model
declare no poll. -/
def pollOf : OpName → Option (BState → Bool)
  | .selByType => some (fun st => st.mode == "OBJECT")
  | .selByName => none
  | .gotoObject => some (fun st => !(sceneObjs st).isEmpty)
  | .selectRoot => some (fun st => decide (0 < st.selected.length))
  | .selectModel => none

/-- Modelled from the Blender plugin ABI: an operator with no declared poll is
always available; otherwise its poll predicate decides availability. -/
def opAllowed (op : OpName) (st : BState) : Bool :=
  match pollOf op with
  | some p => p st
  | none => true

/-- Modelled from the Blender plugin ABI: the host evaluates the poll
predicate before dispatching an invocation; a false poll blocks it. -/
def hostInvoke (op : OpName) (st : BState) : Option Unit :=
  if opAllowed op st then some () else none

/-- The kind of a Python binding as `inspect` classifies it. -/
inductive PyKind
  | cls
  | func
  | pymodule
  deriving DecidableEq, Repr

/-- A name bound in the module namespace, its kind, and whether it is defined
in this file (as opposed to imported). -/
structure Binding where
  bname : String
  kind : PyKind
  definedHere : Bool
  deriving DecidableEq, Repr

/-- The bindings of the module namespace of `selection.py`: the imports of
lines 29–38 (classified per the Python/Blender API — `sys`, `inspect`, `bpy`
and the three phobos utility imports are modules, `Operator` is a class,
`EnumProperty`/`StringProperty` are property-constructor functions, `log` is
a function) followed by the five operator classes and the two lifecycle
functions defined in the file. -/
def moduleMembers : List Binding :=
  [⟨"sys", .pymodule, false⟩,
   ⟨"inspect", .pymodule, false⟩,
   ⟨"bpy", .pymodule, false⟩,
   ⟨"Operator", .cls, false⟩,
   ⟨"EnumProperty", .func, false⟩,
   ⟨"StringProperty", .func, false⟩,
   ⟨"defs", .pymodule, false⟩,
   ⟨"sUtils", .pymodule, false⟩,
   ⟨"bUtils", .pymodule, false⟩,
   ⟨"log", .func, false⟩,
   ⟨"SelectObjectsByPhobosType", .cls, true⟩,
   ⟨"SelectObjectsByName", .cls, true⟩,
   ⟨"GotoObjectOperator", .cls, true⟩,
   ⟨"SelectRootOperator", .cls, true⟩,
   ⟨"SelectModelOperator", .cls, true⟩,
   ⟨"register", .func, true⟩,
   ⟨"unregister", .func, true⟩]

/-- `register()`: iterates `inspect.getmembers(module, inspect.isclass)` and
registers every class bound in the namespace with `bpy.utils.register_class`.
These are the names it processes. -/
def registerProcessed : List String :=
  (moduleMembers.filter (fun b => b.kind == .cls)).map (fun b => b.bname)

/-- `unregister()`: the same `getmembers`/`isclass` enumeration, passed to
`bpy.utils.unregister_class`. -/
def unregisterProcessed : List String :=
  (moduleMembers.filter (fun b => b.kind == .cls)).map (fun b => b.bname)

/-- The selection after an `execute` returning `Except` (empty on a raised
error, which never returns a selection). -/
def selectedAfter (r : Except PyErr ExecOut) : List String :=
  match r with
  | .ok out => out.state.selected
  | .error _ => []

/-- The status an `Except`-valued `execute` returned, if it returned at all. -/
def resultOf (r : Except PyErr ExecOut) : Option OpResult :=
  match r with
  | .ok out => some out.result
  | .error _ => none

/-- The `switchToScene` calls an `Except`-valued `execute` made. -/
def switchCallsOf (r : Except PyErr ExecOut) : List String :=
  match r with
  | .ok out => out.switchCalls
  | .error _ => []

/-- The active scene after an `Except`-valued `execute` (unchanged on error). -/
def activeSceneAfter (r : Except PyErr ExecOut) (st : BState) : String :=
  match r with
  | .ok out => out.state.activeScene
  | .error _ => st.activeScene

/-- Did the `Except`-valued `execute` return normally? -/
def isOkE (r : Except PyErr ExecOut) : Bool :=
  match r with
  | .ok _ => true
  | .error _ => false

/-- The selection the claim about explicit model names expects: the union (in
root enumeration order) of the children of every root whose recorded model
name equals the argument. -/
def unionModelSelection (modelname : String) (st : BState) : List String :=
  ((getRoots st).filter (fun r => r.modelname == some modelname)).foldr
    (fun r acc => getChildren st r.name ++ acc) []

/-- The last root, in enumeration order, whose recorded model name equals the
argument. -/
def lastMatchingRoot (modelname : String) : List Obj → Option Obj
  | [] => none
  | r :: rs =>
    match lastMatchingRoot modelname rs with
    | some x => some x
    | none => if r.modelname == some modelname then some r else none

/-- Concrete state for the explicit-model-name analysis: one scene holding two
roots `R1` and `R2`, both recording model name "m", with one child each. -/
def stTwoRoots : BState :=
  { scenes :=
      [{ name := "S"
         objects :=
           [{ name := "R1", phobostype := "link", parent := none, modelname := some "m", layer := 0 },
            { name := "A", phobostype := "link", parent := some "R1", modelname := none, layer := 0 },
            { name := "R2", phobostype := "link", parent := none, modelname := some "m", layer := 0 },
            { name := "B", phobostype := "link", parent := some "R2", modelname := none, layer := 0 }]
         idProps := [] }]
    activeScene := "S"
    selected := []
    activeObject := none
    mode := "OBJECT"
    visibleLayers := [0] }

/-- The error a raising `execute` raised, if it raised at all. -/
def raisedErr (r : Except PyErr ExecOut) : Option PyErr :=
  match r with
  | .error e => some e
  | .ok _ => none

/-- Concrete state for the Goto-object not-found analysis: one scene whose
objects do not contain "ghost" but whose custom ID-property keys do. -/
def stGhostProp : BState :=
  { scenes :=
      [{ name := "S"
         objects := [{ name := "A", phobostype := "link", parent := none, modelname := none, layer := 0 }]
         idProps := ["ghost"] }]
    activeScene := "S"
    selected := []
    activeObject := none
    mode := "OBJECT"
    visibleLayers := [0] }

/-- Concrete state for the Goto-object scene-switch analysis: the object "A"
is linked into both scenes, and the second scene is active. -/
def stLinkedScenes : BState :=
  { scenes :=
      [{ name := "S1"
         objects := [{ name := "A", phobostype := "link", parent := none, modelname := none, layer := 0 }]
         idProps := [] },
       { name := "S2"
         objects := [{ name := "A", phobostype := "link", parent := none, modelname := none, layer := 0 }]
         idProps := [] }]
    activeScene := "S2"
    selected := []
    activeObject := none
    mode := "OBJECT"
    visibleLayers := [0] }

/-- Concrete state for the Select-root analysis: a single parentless object
"A" which is selected. -/
def stOneSelected : BState :=
  { scenes :=
      [{ name := "S"
         objects := [{ name := "A", phobostype := "link", parent := none, modelname := none, layer := 0 }]
         idProps := [] }]
    activeScene := "S"
    selected := ["A"]
    activeObject := some "A"
    mode := "OBJECT"
    visibleLayers := [0] }

/-- Concrete state with a single object of phobostype "link". -/
def stOneLink : BState :=
  { scenes :=
      [{ name := "S"
         objects := [{ name := "A", phobostype := "link", parent := none, modelname := none, layer := 0 }]
         idProps := [] }]
    activeScene := "S"
    selected := []
    activeObject := none
    mode := "OBJECT"
    visibleLayers := [0] }

/-- Concrete state for deriving a model from the selection: root "R" with
child "A", and "A" selected. -/
def stChildSelected : BState :=
  { scenes :=
      [{ name := "S"
         objects :=
           [{ name := "R", phobostype := "link", parent := none, modelname := some "m", layer := 0 },
            { name := "A", phobostype := "link", parent := some "R", modelname := none, layer := 0 }]
         idProps := [] }]
    activeScene := "S"
    selected := ["A"]
    activeObject := some "A"
    mode := "OBJECT"
    visibleLayers := [0] }

/-- A root object carrying no "modelname" custom property. -/
def rUnnamed : Obj :=
  { name := "R", phobostype := "link", parent := none, modelname := none, layer := 0 }

/-- Concrete state whose scene holds `rUnnamed` as its only (unnamed) root. -/
def stUnnamedRoot : BState :=
  { scenes := [{ name := "S", objects := [rUnnamed], idProps := [] }]
    activeScene := "S"
    selected := []
    activeObject := none
    mode := "OBJECT"
    visibleLayers := [0] }

/-- The availability claim of the spec: every operator declares a poll
predicate, and that predicate is either object-editing mode or a non-empty
selection. -/
def pollClaim : Prop :=
  ∀ op : OpName, ∃ p, pollOf op = some p ∧
    ((∀ st, p st = (st.mode == "OBJECT")) ∨ (∀ st, p st = !st.selected.isEmpty))

lemma containsSub_nil_left : ∀ l : List Char, containsSub [] l = true
  | [] => rfl
  | _ :: _ => by simp [containsSub, headMatches]

/-- Membership in a foldr-accumulated concatenation is membership in one of
the pieces. -/
lemma mem_foldr_append {α β : Type} (f : α → List β) (o : β) :
    ∀ l : List α, o ∈ l.foldr (fun r acc => f r ++ acc) [] ↔ ∃ r ∈ l, o ∈ f r := by
  intro l
  induction l with
  | nil => simp
  | cons r rs ih => simp [List.mem_append, ih]

/-- When every root carries a "modelname" property, the scan of lines 164–166
returns normally, and the selection it produces is the children of the last
matching root (the accumulator when none matches): each later match
overwrites the earlier one. -/
lemma pickModelSelection_lastMatch (m : String) (st : BState) :
    ∀ (rs : List Obj) (sel : List String), (∀ r ∈ rs, (r.modelname).isSome) →
      pickModelSelection m st rs sel =
        .ok (match lastMatchingRoot m rs with
             | some r => getChildren st r.name
             | none => sel) := by
  intro rs
  induction rs with
  | nil => intro sel _; rfl
  | cons r rs ih =>
    intro sel h
    obtain ⟨v, hv⟩ := Option.isSome_iff_exists.mp (h r (by simp))
    have hrs : ∀ x ∈ rs, (x.modelname).isSome := fun x hx => h x (by simp [hx])
    simp only [pickModelSelection, hv]
    rw [ih _ hrs]
    cases hlm : lastMatchingRoot m rs with
    | some x => simp [lastMatchingRoot, hlm]
    | none =>
      cases hb : (v == m) <;> simp [lastMatchingRoot, hlm, hv, hb]

/-- If any root lacks the "modelname" property, the scan of lines 164–166
raises KeyError: the loop reads every root's property and never breaks. -/
lemma pickModelSelection_error_of_unnamed (m : String) (st : BState) :
    ∀ (rs : List Obj) (sel : List String), (∃ r ∈ rs, r.modelname = none) →
      pickModelSelection m st rs sel = .error .keyError := by
  intro rs
  induction rs with
  | nil =>
    rintro sel ⟨r, hr, _⟩
    exact absurd hr (List.not_mem_nil r)
  | cons r rs ih =>
    rintro sel ⟨x, hx, hx0⟩
    rcases List.mem_cons.mp hx with hxr | hxs
    · subst hxr
      simp [pickModelSelection, hx0]
    · cases hr : r.modelname with
      | none => simp [pickModelSelection, hr]
      | some v =>
        simp only [pickModelSelection, hr]
        exact ih _ ⟨x, hxs, hx0⟩

/-- C1: the claim says an explicit model name selects the UNION of the
descendants of every matching root; but the loop assigns (rather than
extends) the selection on each match, so with two roots both recording model
name "m" the first root's descendants are dropped: "A" (descendant of the
matching root "R1") is in the claimed union yet absent from the resulting
selection. -/
theorem selectModel_multiRoot_counterexample :
    "A" ∈ unionModelSelection "m" stTwoRoots ∧
    "A" ∉ selectedAfter (selectModelExecute "m" stTwoRoots) ∧
    selectedAfter (selectModelExecute "m" stTwoRoots) ≠ unionModelSelection "m" stTwoRoots ∧
    resultOf (selectModelExecute "m" stTwoRoots) = some OpResult.FINISHED := by
  decide

/-- C1 (amended): with a non-empty model name, and every root carrying a
recorded model name, Select-model completes and sets the selection to the
descendants of the LAST root (in enumeration order) whose recorded model name
equals the argument — the union only when at most one root matches. -/
theorem selectModel_explicit_name_last_match (st : BState) (m : String)
    (hm : m ≠ "") (hall : ∀ r ∈ getRoots st, (r.modelname).isSome) :
    selectedAfter (selectModelExecute m st) =
      (match lastMatchingRoot m (getRoots st) with
       | some r => getChildren st r.name
       | none => []) ∧
    isOkE (selectModelExecute m st) = true := by
  unfold selectModelExecute
  rw [if_pos hm, pickModelSelection_lastMatch m st (getRoots st) [] hall]
  cases lastMatchingRoot m (getRoots st) <;>
    simp [selectedAfter, isOkE, selectObjects]

/-- C1 (amended) at the two-root state: both roots record "m", the last one is
"R2", and exactly its descendants get selected. -/
theorem selectModel_explicit_name_last_match_witness :
    selectedAfter (selectModelExecute "m" stTwoRoots) = getChildren stTwoRoots "R2" ∧
    isOkE (selectModelExecute "m" stTwoRoots) = true := by
  have h := selectModel_explicit_name_last_match stTwoRoots "m" (by decide) (by decide)
  exact ⟨h.1.trans (by decide), h.2⟩

/-- C2: the name "ghost" is in no scene's object set, yet because it is a
custom ID-property key of the active scene, line 101's membership test (over
the scene datablock's custom properties, not its objects) skips the
not-found branch; line 112 then raises an uncaught KeyError instead of
logging an error and returning CANCELLED. -/
theorem goto_missing_object_keyError_bug :
    (∀ sce ∈ stGhostProp.scenes, findObj sce.objects "ghost" = none) ∧
    raisedErr (gotoObjectExecute "ghost" stGhostProp) = some PyErr.keyError ∧
    resultOf (gotoObjectExecute "ghost" stGhostProp) ≠ some OpResult.CANCELLED := by
  decide

/-- C3: the object "A" is present in the active scene ("S2"), yet Goto-object
performs a scene switch: line 101 tests the scene's custom-property keys, not
its objects, so the per-scene search runs and switches to the FIRST scene
containing "A" — here "S1", changing the active scene away from "S2". -/
theorem goto_switch_despite_presence_bug :
    (findObj (sceneObjs stLinkedScenes) "A").isSome = true ∧
    stLinkedScenes.activeScene = "S2" ∧
    switchCallsOf (gotoObjectExecute "A" stLinkedScenes) = ["S1"] ∧
    activeSceneAfter (gotoObjectExecute "A" stLinkedScenes) stLinkedScenes = "S1" := by
  decide

/-- C4: with the single object "A" selected (its own root), Select-root should
complete with the root selected and active; instead line 134 reads
`self.objectname`, a property `SelectRootOperator` never declares, so the
execute raises AttributeError whenever any root was found. -/
theorem selectRoot_attributeError_bug :
    stOneSelected.selected ≠ [] ∧
    raisedErr (selectRootExecute stOneSelected) = some PyErr.attributeError := by
  decide

/-- C5: the claim that each of the five operators declares a poll predicate,
and that the predicate is object-editing mode or a non-empty selection, is
false: `SelectObjectsByName` declares no poll at all. -/
theorem poll_claim_counterexample : ¬ pollClaim := by
  intro h
  rcases h OpName.selByName with ⟨p, hp, _⟩
  simp [pollOf] at hp

/-- C5 (amended): only three of the five operators declare a poll predicate —
Select-by-phobostype requires object-editing mode, Select-root a non-empty
selection, and Goto-object a non-empty active-scene object list (a predicate
the claim does not name); Select-by-name and Select-model declare none and
are always available; invocation is blocked exactly when a declared predicate
is false. -/
theorem poll_predicates_amended :
    pollOf OpName.selByName = none ∧
    pollOf OpName.selectModel = none ∧
    (∀ st, opAllowed OpName.selByType st = (st.mode == "OBJECT")) ∧
    (∀ st, opAllowed OpName.selByName st = true) ∧
    (∀ st, opAllowed OpName.gotoObject st = !(sceneObjs st).isEmpty) ∧
    (∀ st, opAllowed OpName.selectRoot st = decide (0 < st.selected.length)) ∧
    (∀ st, opAllowed OpName.selectModel st = true) ∧
    (∀ op st, hostInvoke op st = none ↔ opAllowed op st = false) := by
  refine ⟨rfl, rfl, fun st => rfl, fun st => rfl, fun st => rfl, fun st => rfl,
    fun st => rfl, fun op st => ?_⟩
  unfold hostInvoke
  cases hb : opAllowed op st <;> simp [hb]

/-- C6: when no scene object carries the chosen phobostype, Select-by-type
returns FINISHED, replaces the selection with the empty selection, and emits
no log message (in particular no error). -/
theorem selByPhobosType_no_match (st : BState) (t : String)
    (h : ∀ o ∈ sceneObjs st, o.phobostype ≠ t) :
    (selByPhobosTypeExecute t st).result = OpResult.FINISHED ∧
    (selByPhobosTypeExecute t st).state.selected = [] ∧
    (selByPhobosTypeExecute t st).logs = [] := by
  refine ⟨rfl, ?_, rfl⟩
  have hf : (sceneObjs st).filter (fun o => o.phobostype == t) = [] := by
    rw [List.filter_eq_nil_iff]
    intro o ho
    simpa using h o ho
  simp [selByPhobosTypeExecute, selectObjects, hf]

/-- C6 at a concrete state: selecting type "joint" in a scene holding only a
"link" object yields the empty selection and FINISHED. -/
theorem selByPhobosType_no_match_witness :
    (selByPhobosTypeExecute "joint" stOneLink).state.selected = [] ∧
    (selByPhobosTypeExecute "joint" stOneLink).result = OpResult.FINISHED := by
  have h := selByPhobosType_no_match stOneLink "joint" (by decide)
  exact ⟨h.2.1, h.1⟩

/-- C7: with the empty string as name fragment, Select-by-name selects every
scene object — the empty string is a substring of every name — and returns
FINISHED. -/
theorem selByName_empty_fragment_selects_all (st : BState) :
    (selByNameExecute "" st).state.selected = (sceneObjs st).map (fun o => o.name) ∧
    (selByNameExecute "" st).result = OpResult.FINISHED := by
  constructor
  · have hf : (sceneObjs st).filter (fun o => containsSub [] o.name.data) =
        sceneObjs st :=
      List.filter_eq_self.mpr (fun o _ => containsSub_nil_left o.name.data)
    simp [selByNameExecute, selectObjects, hf]
  · rfl

/-- C8: with no model name and a non-empty selection, Select-model completes
with FINISHED, the derived root list is duplicate-free, and the new selection
holds exactly the union of the descendants of the roots of the selected
objects. -/
theorem selectModel_derive_from_selection (st : BState) (o : String)
    (_h : st.selected ≠ []) :
    resultOf (selectModelExecute "" st) = some OpResult.FINISHED ∧
    ((st.selected.map (fun n => getRoot st n)).dedup).Nodup ∧
    (o ∈ selectedAfter (selectModelExecute "" st) ↔
      ∃ s ∈ st.selected, o ∈ getChildren st (getRoot st s)) := by
  refine ⟨rfl, List.nodup_dedup _, ?_⟩
  show o ∈ ((st.selected.map (fun n => getRoot st n)).dedup).foldr
      (fun r acc => getChildren st r ++ acc) [] ↔ _
  rw [mem_foldr_append]
  constructor
  · rintro ⟨r, hr, ho⟩
    obtain ⟨s, hs, hsr⟩ := List.mem_map.mp (List.mem_dedup.mp hr)
    exact ⟨s, hs, hsr ▸ ho⟩
  · rintro ⟨s, hs, ho⟩
    exact ⟨getRoot st s, List.mem_dedup.mpr (List.mem_map.mpr ⟨s, hs, rfl⟩), ho⟩

/-- C8 at a concrete state: with the child "A" of root "R" selected and no
model name, "R" itself lands in the selection (it is in the union of the
descendants of the derived roots). -/
theorem selectModel_derive_from_selection_witness :
    resultOf (selectModelExecute "" stChildSelected) = some OpResult.FINISHED ∧
    ("R" ∈ selectedAfter (selectModelExecute "" stChildSelected) ↔
      ∃ s ∈ stChildSelected.selected, "R" ∈ getChildren stChildSelected (getRoot stChildSelected s)) := by
  have h := selectModel_derive_from_selection stChildSelected "R" (by decide)
  exact ⟨h.1, h.2.2⟩

/-- C9: with a non-empty model name, the loop reads the "modelname" custom
property of every root without a guard and without breaking, so any scene
containing a root with no recorded model name makes the command raise
KeyError rather than skip that root. -/
theorem selectModel_unnamed_root_keyError (st : BState) (m : String) (r : Obj)
    (hm : m ≠ "") (hr : r ∈ getRoots st) (hnone : r.modelname = none) :
    selectModelExecute m st = Except.error PyErr.keyError := by
  unfold selectModelExecute
  rw [if_pos hm, pickModelSelection_error_of_unnamed m st (getRoots st) [] ⟨r, hr, hnone⟩]

/-- C9 at a concrete state: the unnamed root `rUnnamed` makes the explicit
Select-model invocation raise KeyError. -/
theorem selectModel_unnamed_root_keyError_witness :
    selectModelExecute "x" stUnnamedRoot = Except.error PyErr.keyError :=
  selectModel_unnamed_root_keyError stUnnamedRoot "x" rUnnamed (by decide) (by decide) rfl

/-- C10: `register()` and `unregister()` enumerate the classes of the whole
module namespace, so they process the five operator classes defined in the
file AND the imported `Operator` class — six classes in total, the same list
for both. -/
theorem register_enumerates_all_classes :
    registerProcessed =
      ["Operator", "SelectObjectsByPhobosType", "SelectObjectsByName",
       "GotoObjectOperator", "SelectRootOperator", "SelectModelOperator"] ∧
    unregisterProcessed = registerProcessed ∧
    (∃ b ∈ moduleMembers, b.definedHere = false ∧ b.kind = PyKind.cls ∧
      b.bname ∈ registerProcessed) := by
  decide
